import Mathlib

/-!
# Verification of the anomaly-detection core

A shallow embedding of the multi-algorithm anomaly-detection engine
(`StatisticalDetectors`, `MLDetectors`, `EnterpriseAnomalyDetector` in
`src/lib/.../anomaly detection` module) together with proofs of the frozen
claims about it.

Modelling conventions:
* JS `number` is modelled by `ℝ`.  Arithmetic on finite doubles is exact
  real arithmetic; the one reachable IEEE-754 special case (a positive
  numerator divided by zero giving `+Infinity`, which `Math.min(_, 1)`
  then collapses to `1`) is modelled explicitly by `JsNum`/`jsDiv`/`jsMin`
  below.  Lean's own convention `x / 0 = 0` is never relied upon on a
  reachable path except where noted in comments.
* `Math.random()` is modelled by an injected stream of values: the
  isolation-forest detector receives `rand : ℕ → ℕ → ℝ` giving the split
  fraction used by tree `i` at depth `d`.  No other code consumes
  randomness.
* `Array.prototype.sort((a,b) => a-b)` is modelled by `List.insertionSort
  (· ≤ ·)`: both produce the unique sorted permutation, and ties are
  irrelevant everywhere values are read (only the multiset of numbers is
  used downstream).
* `x.toFixed(2)` / `x.toFixed(1)` are deterministic functions of the
  number; they are threaded as parameters `fmt2 fmt1 : ℝ → String`.
* Wall-clock fields (`executionTime`, `processingTimeMs`) are modelled as
  `0`; the observability/tracing calls are effect-free for the result and
  are dropped.
-/

noncomputable section

open Classical

namespace Whole

/-- `interface DataPoint` (timestamp modelled as a natural number; the
detectors only read `value`). -/
structure DataPoint where
  timestamp : ℕ
  value : ℝ
  metric : String

/-- `sensitivity: 'low' | 'medium' | 'high' | 'adaptive'`. -/
inductive Sensitivity
  | low
  | medium
  | high
  | adaptive
deriving DecidableEq

/-- `ensembleWeighting: 'performance' | 'confidence' | 'adaptive'`. -/
inductive EnsembleWeighting
  | performance
  | confidence
  | adaptive
deriving DecidableEq

/-- `interface AdvancedDetectorConfig`.  `algorithms` is a list of strings:
TypeScript narrows it to eight literals, but the runtime check
`shouldRunAlgorithm` compares plain strings, and claim C6 is about names
outside that set, so the embedding keeps `String`. -/
structure AdvancedDetectorConfig where
  algorithms : List String
  sensitivity : Sensitivity
  contextWindow : ℝ
  seasonalityPeriods : List ℕ
  adaptiveLearning : Bool
  ensembleWeighting : EnsembleWeighting
  minDataPoints : ℕ

/-- `severity: 'info' | 'warning' | 'critical'`. -/
inductive Severity
  | info
  | warning
  | critical
deriving DecidableEq

/-- One element of `AnomalyResult['algorithms']`. -/
structure AlgorithmScore where
  name : String
  score : ℝ
  isAnomaly : Prop
  contribution : ℝ
  executionTime : ℝ

/-- `AnomalyResult['explanation']`. -/
structure Explanation where
  reason : String
  expectedRange : ℝ × ℝ
  actualValue : ℝ
  historicalContext : String
  seasonalPattern : Option String
  deviation : ℝ

/-- `AnomalyResult['metadata']`. -/
structure ResultMetadata where
  processingTimeMs : ℝ
  dataPointsAnalyzed : ℕ
  modelVersion : String
  algorithm : String

/-- `interface AnomalyResult`. -/
structure AnomalyResult where
  isAnomaly : Prop
  confidence : ℝ
  severity : Severity
  score : ℝ
  algorithms : List AlgorithmScore
  explanation : Explanation
  metadata : ResultMetadata

/-! ## Shared numeric helpers (the reduces and sorts of the source) -/

/-- `data.reduce((a, b) => a + b, 0) / data.length`: the arithmetic mean.
(JS folds from the left; over `ℝ` that equals `List.sum`.)  For `data = []`
JS yields `0/0 = NaN`; every caller guards the length first. -/
def mean (data : List ℝ) : ℝ := data.sum / data.length

/-- `data.reduce((a, b) => a + Math.pow(b - mean, 2), 0) / data.length`:
the population variance. -/
def popVariance (data : List ℝ) : ℝ :=
  (data.map (fun b => (b - mean data) ^ 2)).sum / data.length

/-- `Math.sqrt` of the population variance. -/
def popStdDev (data : List ℝ) : ℝ := Real.sqrt (popVariance data)

/-- `[...data].sort((a, b) => a - b)`: ascending numeric sort. -/
def sortAsc (data : List ℝ) : List ℝ := data.insertionSort (· ≤ ·)

/-- A JS quotient that may be `+Infinity`.  The only division reaching a
zero denominator in the source is `iqr`'s distance, whose numerator is
then strictly positive, so `+Infinity` is the only special value we need:
`fin x` is an ordinary finite quotient. -/
inductive JsNum
  | fin (x : ℝ)
  | posInf

/-- IEEE-754 division as JS performs it on the reachable inputs:
`a / 0 = +Infinity` for `a > 0`, ordinary division otherwise.  (Zero or
negative numerators with a zero denominator never reach this function.) -/
def jsDiv (a b : ℝ) : JsNum := if b = 0 ∧ 0 < a then .posInf else .fin (a / b)

/-- `Math.min` with a possibly-infinite first argument:
`Math.min(+Infinity, b) = b`. -/
def jsMin (a : JsNum) (b : ℝ) : ℝ :=
  match a with
  | .fin x => min x b
  | .posInf => b

/-! ## `class StatisticalDetectors` -/

namespace StatisticalDetectors

/-- Result shape of `zScore` and `mad`. -/
structure ZResult where
  isAnomaly : Prop
  score : ℝ
  deviation : ℝ

/-- Result shape of `iqr`. -/
structure IqrResult where
  isAnomaly : Prop
  score : ℝ
  expectedRange : ℝ × ℝ

/-- `StatisticalDetectors.zScore(value, data, threshold = 3)`. -/
def zScore (value : ℝ) (data : List ℝ) (threshold : ℝ := 3) : ZResult :=
  if data.length < 2 then ⟨False, 0, 0⟩
  else
    let m := mean data
    let stdDev := Real.sqrt ((data.map (fun b => (b - m) ^ 2)).sum / data.length)
    if stdDev = 0 then ⟨False, 0, 0⟩
    else
      let z := |(value - m) / stdDev|
      ⟨z > threshold, min (z / threshold) 1, z⟩

/-- `StatisticalDetectors.median(sorted)`: the middle element(s) of the
array it is handed (the caller is expected to sort; out-of-range reads,
which the guarded callers never trigger, default to `0`). -/
def median (sorted : List ℝ) : ℝ :=
  let mid := sorted.length / 2
  if sorted.length % 2 = 0 then (sorted.getD (mid - 1) 0 + sorted.getD mid 0) / 2
  else sorted.getD mid 0

/-- `StatisticalDetectors.mad(value, data, threshold = 3.5)`.  Note the
source computes `this.median(deviations)` on the deviations in original
data order, without re-sorting them; the embedding reproduces that. -/
def mad (value : ℝ) (data : List ℝ) (threshold : ℝ := 3.5) : ZResult :=
  if data.length < 2 then ⟨False, 0, 0⟩
  else
    let sorted := sortAsc data
    let med := median sorted
    let deviations := data.map (fun x => |x - med|)
    let madValue := median deviations
    if madValue = 0 then ⟨False, 0, 0⟩
    else
      let modifiedZScore := 0.6745 * |value - med| / madValue
      ⟨modifiedZScore > threshold, min (modifiedZScore / threshold) 1, modifiedZScore⟩

/-- `StatisticalDetectors.percentile(sorted, p)`: linear-interpolated
percentile (indices are in range for `0 ≤ p ≤ 100` and a non-empty list). -/
def percentile (sorted : List ℝ) (p : ℝ) : ℝ :=
  let index := p / 100 * ((sorted.length : ℝ) - 1)
  let lower := ⌊index⌋
  let upper := ⌈index⌉
  let weight := index - lower
  sorted.getD lower.toNat 0 * (1 - weight) + sorted.getD upper.toNat 0 * weight

/-- `StatisticalDetectors.iqr(value, data, multiplier = 1.5)`.  The source
has no guard for a zero interquartile range: the distance is then a JS
division by zero (`+Infinity` for a value outside the collapsed bounds),
which `Math.min(_, 1)` turns into a score of `1`. -/
def iqr (value : ℝ) (data : List ℝ) (multiplier : ℝ := 1.5) : IqrResult :=
  if data.length < 4 then ⟨False, 0, (0, 0)⟩
  else
    let sorted := sortAsc data
    let q1 := percentile sorted 25
    let q3 := percentile sorted 75
    let iqrValue := q3 - q1
    let lowerBound := q1 - multiplier * iqrValue
    let upperBound := q3 + multiplier * iqrValue
    let anomalous := value < lowerBound ∨ value > upperBound
    let distance : JsNum :=
      if value < lowerBound then jsDiv (lowerBound - value) iqrValue
      else if value > upperBound then jsDiv (value - upperBound) iqrValue
      else .fin 0
    ⟨anomalous, jsMin distance 1, (lowerBound, upperBound)⟩

end StatisticalDetectors

/-! ## `class MLDetectors` -/

namespace MLDetectors

/-- Result shape of `isolationForest` and `lof`. -/
structure MLResult where
  isAnomaly : Prop
  score : ℝ

/-- `Math.min(...subset)` (the callers guard `subset.length > 1`, so the
`[]` case, JS `+Infinity`, is unreachable and defaults to `0`). -/
def listMin : List ℝ → ℝ
  | [] => 0
  | x :: xs => xs.foldl min x

/-- `Math.max(...subset)` (same remark as `listMin`). -/
def listMax : List ℝ → ℝ
  | [] => 0
  | x :: xs => xs.foldl max x

/-- The body of `MLDetectors.isolationDepth`'s `while` loop, with the
remaining iteration budget `maxDepth - depth` as structural fuel:
`while (subset.length > 1 && depth < maxDepth)` split the working subset
at a random point between its min and max and keep the half on `value`'s
side.  `rand depth` models the `Math.random()` drawn at that step. -/
def isolationLoop (value : ℝ) (rand : ℕ → ℝ) : ℕ → List ℝ → ℕ → ℕ
  | 0, _, depth => depth
  | fuel + 1, subset, depth =>
    if subset.length > 1 then
      let mn := listMin subset
      let mx := listMax subset
      let split := mn + rand depth * (mx - mn)
      let subset' :=
        if value < split then subset.filter (fun x => decide (x < split))
        else subset.filter (fun x => decide (split ≤ x))
      isolationLoop value rand fuel subset' (depth + 1)
    else depth

/-- `MLDetectors.isolationDepth(value, data)`:
`maxDepth = Math.ceil(Math.log2(data.length))`, modelled by `Nat.clog 2`
(the ceiling of the base-2 logarithm of a natural number). -/
def isolationDepth (value : ℝ) (data : List ℝ) (rand : ℕ → ℝ) : ℕ :=
  isolationLoop value rand (Nat.clog 2 data.length) data 0

/-- `MLDetectors.expectedIsolationDepth(n)`: the harmonic-number
approximation `2*(ln(n-1) + 0.5772156649) - 2*(n-1)/n` for `n > 1`. -/
def expectedIsolationDepth (n : ℕ) : ℝ :=
  if n ≤ 1 then 0
  else 2 * (Real.log ((n : ℝ) - 1) + 0.5772156649) - 2 * ((n : ℝ) - 1) / n

/-- `MLDetectors.isolationForest(value, data, numTrees = 100)`.
`rand i` is the random stream consumed by tree `i`. -/
def isolationForest (value : ℝ) (data : List ℝ) (rand : ℕ → ℕ → ℝ)
    (numTrees : ℕ := 100) : MLResult :=
  if data.length < 10 then ⟨False, 0⟩
  else
    let depths := (List.range numTrees).map
      (fun i => (isolationDepth value data (rand i) : ℝ))
    let avgDepth := depths.sum / depths.length
    let expectedDepth := expectedIsolationDepth data.length
    let anomalyScore := (2 : ℝ) ^ (-(avgDepth / expectedDepth))
    ⟨anomalyScore > 0.6, anomalyScore⟩

/-- `MLDetectors.lof(value, data, k = 5)`.  The source builds records
`{value, distance, index}`, sorts them by `distance` and afterwards reads
only the `distance` field, so the embedding carries the sorted distance
list directly. -/
def lof (value : ℝ) (data : List ℝ) (k : ℕ := 5) : MLResult :=
  if data.length < k + 1 then ⟨False, 0⟩
  else
    let distances := (sortAsc (data.map (fun d => |d - value|))).take k
    let avgDistance := distances.sum / k
    let lofScore := avgDistance / (distances.getD (distances.length - 1) 0 + 0.0001)
    ⟨lofScore > 1.5, min (lofScore / 2) 1⟩

end MLDetectors

/-! ## `class EnterpriseAnomalyDetector`

The detector instance's state is its immutable config, the (externally
populated, never written in-core) `performance` map — modelled as
`perf : String → Option ℝ` giving the stored `f1Score` — and the constant
`modelVersion`.  `detect` is `async` but performs no suspension that
affects the result; it is embedded as a pure function. -/

namespace EnterpriseAnomalyDetector

/-- `private modelVersion = '1.0.0'`. -/
def modelVersion : String := "1.0.0"

/-- `private shouldRunAlgorithm(algorithm)`. -/
def shouldRunAlgorithm (cfg : AdvancedDetectorConfig) (algorithm : String) : Prop :=
  "ensemble" ∈ cfg.algorithms ∨ algorithm ∈ cfg.algorithms

/-- `private getThreshold()`: ensemble-score threshold per sensitivity. -/
def getThreshold (s : Sensitivity) : ℝ :=
  match s with
  | .low => 0.7
  | .medium => 0.6
  | .high => 0.5
  | .adaptive => 0.6

/-- `private getSensitivityThreshold()`: the z-score threshold per
sensitivity. -/
def getSensitivityThreshold (s : Sensitivity) : ℝ :=
  match s with
  | .low => 4
  | .medium => 3
  | .high => 2
  | .adaptive => 3

/-- `private calculateAlgorithmWeights(results)`. -/
def calculateAlgorithmWeights (cfg : AdvancedDetectorConfig)
    (perf : String → Option ℝ) (results : List AlgorithmScore) : List ℝ :=
  match cfg.ensembleWeighting with
  | .performance => results.map (fun r => (perf r.name).getD 1)
  | .confidence => results.map (fun r => r.score + 0.1)
  | .adaptive => results.map (fun _ => 1)

/-- `private determineSeverity(score, confidence)`. -/
def determineSeverity (score confidence : ℝ) : Severity :=
  if score * confidence > 0.8 then .critical
  else if score * confidence > 0.6 then .warning
  else .info

/-- `results.filter(r => r.isAnomaly).length`. -/
def anomalyCount : List AlgorithmScore → ℕ
  | [] => 0
  | r :: rs => (if r.isAnomaly then 1 else 0) + anomalyCount rs

/-- The fields `ensembleVote` returns
(`Pick<AnomalyResult, 'isAnomaly'|'confidence'|'severity'|'score'|'algorithms'>`). -/
structure EnsembleVerdict where
  isAnomaly : Prop
  confidence : ℝ
  severity : Severity
  score : ℝ
  algorithms : List AlgorithmScore

/-- `private ensembleVote(results)`.  The `forEach` accumulations of
`weightedScore` and `totalWeight` are left folds over the results paired
with their weights (the weight list is a `map` over `results`, so `zip`
loses nothing).  `normalizedScore = weightedScore / totalWeight` follows
Lean's `x / 0 = 0` if every weight is zero — a path only an externally
injected performance table of zero f1-scores could reach. -/
def ensembleVote (cfg : AdvancedDetectorConfig) (perf : String → Option ℝ)
    (results : List AlgorithmScore) : EnsembleVerdict :=
  if results = [] then ⟨False, 0, .info, 0, []⟩
  else
    let weights := calculateAlgorithmWeights cfg perf results
    let weightedScore := (results.zip weights).foldl
      (fun acc p => acc + p.1.score * p.2) 0
    let totalWeight := weights.foldl (fun acc w => acc + w) 0
    let normalizedScore := weightedScore / totalWeight
    let threshold := getThreshold cfg.sensitivity
    let anomalous := normalizedScore > threshold
    let agreement := (anomalyCount results : ℝ) / results.length
    let confidence :=
      if anomalous then agreement * normalizedScore
      else (1 - agreement) * (1 - normalizedScore)
    let severity := determineSeverity normalizedScore confidence
    let algorithmsWithContribution := (results.zip weights).map
      (fun p => ⟨p.1.name, p.1.score, p.1.isAnomaly,
        p.1.score * p.2 / weightedScore, p.1.executionTime⟩)
    ⟨anomalous, confidence, severity, normalizedScore, algorithmsWithContribution⟩

/-- `private async runZScore(value, data)`: calls `zScore` with the
sensitivity-dependent threshold. -/
def runZScore (cfg : AdvancedDetectorConfig) (value : ℝ) (data : List ℝ) :
    AlgorithmScore :=
  let result := StatisticalDetectors.zScore value data
    (getSensitivityThreshold cfg.sensitivity)
  ⟨"zscore", result.score, result.isAnomaly, 0, 0⟩

/-- `private async runMAD(value, data)`: calls `mad` with its default
threshold `3.5`. -/
def runMAD (value : ℝ) (data : List ℝ) : AlgorithmScore :=
  let result := StatisticalDetectors.mad value data 3.5
  ⟨"mad", result.score, result.isAnomaly, 0, 0⟩

/-- `private async runIQR(value, data)`: calls `iqr` with its default
multiplier `1.5`. -/
def runIQR (value : ℝ) (data : List ℝ) : AlgorithmScore :=
  let result := StatisticalDetectors.iqr value data 1.5
  ⟨"iqr", result.score, result.isAnomaly, 0, 0⟩

/-- `private async runIsolationForest(value, data)`. -/
def runIsolationForest (rand : ℕ → ℕ → ℝ) (value : ℝ) (data : List ℝ) :
    AlgorithmScore :=
  let result := MLDetectors.isolationForest value data rand 100
  ⟨"isolation-forest", result.score, result.isAnomaly, 0, 0⟩

/-- `private async runLOF(value, data)`. -/
def runLOF (value : ℝ) (data : List ℝ) : AlgorithmScore :=
  let result := MLDetectors.lof value data 5
  ⟨"lof", result.score, result.isAnomaly, 0, 0⟩

/-- The `algorithmResults` array `detect` pushes onto: one entry per
enabled algorithm, in the fixed order zscore, mad, iqr, isolation-forest,
lof. -/
def configuredResults (cfg : AdvancedDetectorConfig) (rand : ℕ → ℕ → ℝ)
    (value : ℝ) (values : List ℝ) : List AlgorithmScore :=
  (if shouldRunAlgorithm cfg "zscore" then [runZScore cfg value values] else []) ++
  (if shouldRunAlgorithm cfg "mad" then [runMAD value values] else []) ++
  (if shouldRunAlgorithm cfg "iqr" then [runIQR value values] else []) ++
  (if shouldRunAlgorithm cfg "isolation-forest"
    then [runIsolationForest rand value values] else []) ++
  (if shouldRunAlgorithm cfg "lof" then [runLOF value values] else [])

/-- `private generateExplanation(value, data, result, historicalData)`.
(`result.score` and `historicalData` are dead parameters in the source;
only `result.isAnomaly` is read.) -/
def generateExplanation (fmt2 fmt1 : ℝ → String) (value : ℝ) (data : List ℝ)
    (resultIsAnomaly : Prop) : Explanation :=
  let m := mean data
  let stdDev := Real.sqrt ((data.map (fun b => (b - m) ^ 2)).sum / data.length)
  let deviation := if stdDev > 0 then (value - m) / stdDev else 0
  let sorted := sortAsc data
  let lo := sorted.getD 0 0
  let hi := sorted.getD (sorted.length - 1) 0
  let expectedRange : ℝ × ℝ := (m - 2 * stdDev, m + 2 * stdDev)
  let base :=
    if resultIsAnomaly then
      "Value " ++ fmt2 value ++ " is significantly different from historical patterns."
    else "Value " ++ fmt2 value ++ " is within normal range."
  let reason :=
    if resultIsAnomaly then
      if value > m then base ++ " It is " ++ fmt1 deviation ++ "σ above the mean."
      else base ++ " It is " ++ fmt1 |deviation| ++ "σ below the mean."
    else base
  let historicalContext :=
    "Based on " ++ toString data.length ++ " historical data points. " ++
    "Mean: " ++ fmt2 m ++ ", StdDev: " ++ fmt2 stdDev ++ ", " ++
    "Range: [" ++ fmt2 lo ++ ", " ++ fmt2 hi ++ "]"
  ⟨reason, expectedRange, value, historicalContext, none, |deviation|⟩

/-- `private createNonAnomalyResult(dataPoint, reason, processingTime)`. -/
def createNonAnomalyResult (dataPoint : DataPoint) (reason : String)
    (processingTime : ℝ) : AnomalyResult :=
  ⟨False, 0, .info, 0, [],
    ⟨reason, (0, 0), dataPoint.value, reason, none, 0⟩,
    ⟨processingTime, 0, modelVersion, "none"⟩⟩

/-- `async detect(dataPoint, historicalData)`: the coordinator.  The
source contains no `throw` of its own (the `catch` clause only rethrows),
so for schema-valid numeric input the embedding is a total function. -/
def detect (cfg : AdvancedDetectorConfig) (perf : String → Option ℝ)
    (fmt2 fmt1 : ℝ → String) (rand : ℕ → ℕ → ℝ)
    (dataPoint : DataPoint) (historicalData : List DataPoint) : AnomalyResult :=
  if historicalData.length < cfg.minDataPoints then
    createNonAnomalyResult dataPoint "Insufficient historical data" 0
  else
    let values := historicalData.map (fun d => d.value)
    let currentValue := dataPoint.value
    let algorithmResults := configuredResults cfg rand currentValue values
    let ensembleResult := ensembleVote cfg perf algorithmResults
    let explanation :=
      generateExplanation fmt2 fmt1 currentValue values ensembleResult.isAnomaly
    ⟨ensembleResult.isAnomaly, ensembleResult.confidence, ensembleResult.severity,
      ensembleResult.score, ensembleResult.algorithms, explanation,
      ⟨0, historicalData.length, modelVersion, "ensemble"⟩⟩

end EnterpriseAnomalyDetector

/-! ## General helper lemmas -/

/-- A JS `forEach` accumulation is a left fold; over `ℝ` it equals the sum
of the mapped list. -/
lemma foldl_add_map {α : Type} (f : α → ℝ) :
    ∀ (l : List α) (a : ℝ), l.foldl (fun acc x => acc + f x) a = a + (l.map f).sum
  | [], a => by simp
  | x :: xs, a => by
    rw [List.foldl_cons, foldl_add_map f xs, List.map_cons, List.sum_cons]
    ring

lemma getD_replicate {n i : ℕ} (c : ℝ) (h : i < n) :
    (List.replicate n c).getD i 0 = c := by
  rw [List.getD_eq_getElem _ _ (by simpa using h)]
  simp

lemma getD_nonneg {l : List ℝ} (h : ∀ x ∈ l, 0 ≤ x) (i : ℕ) : 0 ≤ l.getD i 0 := by
  rcases lt_or_ge i l.length with hi | hi
  · rw [List.getD_eq_getElem _ _ hi]
    exact h _ (List.getElem_mem _)
  · rw [List.getD_eq_default _ _ hi]

lemma mean_replicate {n : ℕ} (hn : n ≠ 0) (c : ℝ) :
    mean (List.replicate n c) = c := by
  have hn' : (n : ℝ) ≠ 0 := Nat.cast_ne_zero.mpr hn
  simp [mean, List.sum_replicate, nsmul_eq_mul]
  field_simp

lemma popVariance_replicate {n : ℕ} (hn : n ≠ 0) (c : ℝ) :
    popVariance (List.replicate n c) = 0 := by
  simp [popVariance, mean_replicate hn, List.map_replicate, List.sum_replicate]

lemma sortAsc_replicate (n : ℕ) (c : ℝ) :
    sortAsc (List.replicate n c) = List.replicate n c := by
  apply List.Sorted.insertionSort_eq
  exact List.pairwise_replicate.mpr (Or.inr le_rfl)

lemma median_replicate {n : ℕ} (hn : 1 ≤ n) (c : ℝ) :
    StatisticalDetectors.median (List.replicate n c) = c := by
  unfold StatisticalDetectors.median
  simp only [List.length_replicate]
  split
  · rw [getD_replicate c (by omega), getD_replicate c (by omega)]
    ring
  · exact getD_replicate c (by omega)

lemma percentile_replicate {n : ℕ} (hn : 1 ≤ n) {p : ℝ} (hp0 : 0 ≤ p)
    (hp1 : p ≤ 100) (c : ℝ) :
    StatisticalDetectors.percentile (List.replicate n c) p = c := by
  unfold StatisticalDetectors.percentile
  simp only [List.length_replicate]
  have hle : p / 100 * ((n : ℝ) - 1) ≤ (n : ℝ) - 1 := by
    apply mul_le_of_le_one_left
    · have : (1 : ℝ) ≤ (n : ℝ) := by exact_mod_cast hn
      linarith
    · linarith
  have hceil : ⌈p / 100 * ((n : ℝ) - 1)⌉ ≤ (n : ℤ) - 1 := by
    rw [Int.ceil_le]
    push_cast
    exact hle
  have hfloor : ⌊p / 100 * ((n : ℝ) - 1)⌋ ≤ (n : ℤ) - 1 :=
    le_trans (Int.floor_le_ceil _) hceil
  rw [getD_replicate c (by omega), getD_replicate c (by omega)]
  ring

/-! ## Degenerate-dispersion behaviour of the statistical detectors -/

/-- `zScore` with zero population variance: the `stdDev === 0` guard fires
(also when fewer than two points are given). -/
lemma zScore_degenerate (value : ℝ) {data : List ℝ} (h : popVariance data = 0)
    (t : ℝ) : StatisticalDetectors.zScore value data t = ⟨False, 0, 0⟩ := by
  unfold popVariance at h
  unfold StatisticalDetectors.zScore
  split
  · rfl
  · rw [if_pos (by rw [h, Real.sqrt_zero])]

/-- `mad` with a zero computed MAD (the source's `median` of the unsorted
deviations): the `mad === 0` guard fires. -/
lemma mad_degenerate (value : ℝ) {data : List ℝ}
    (h : StatisticalDetectors.median
      (data.map (fun x => |x - StatisticalDetectors.median (sortAsc data)|)) = 0)
    (t : ℝ) : StatisticalDetectors.mad value data t = ⟨False, 0, 0⟩ := by
  unfold StatisticalDetectors.mad
  split
  · rfl
  · rw [if_pos h]

/-- `iqr` with a zero interquartile range (at least 4 points): both bounds
collapse to `q1`, any other value is flagged with score `1` via the IEEE
`+Infinity` quotient, and the point itself scores `0`. -/
lemma iqr_degenerate (value : ℝ) {data : List ℝ} (h4 : ¬ data.length < 4)
    (heq : StatisticalDetectors.percentile (sortAsc data) 75 =
      StatisticalDetectors.percentile (sortAsc data) 25) (m : ℝ) :
    StatisticalDetectors.iqr value data m =
      ⟨value < StatisticalDetectors.percentile (sortAsc data) 25 ∨
        value > StatisticalDetectors.percentile (sortAsc data) 25,
       if value = StatisticalDetectors.percentile (sortAsc data) 25 then 0 else 1,
       (StatisticalDetectors.percentile (sortAsc data) 25,
        StatisticalDetectors.percentile (sortAsc data) 25)⟩ := by
  unfold StatisticalDetectors.iqr
  rw [if_neg h4]
  set q := StatisticalDetectors.percentile (sortAsc data) 25 with hq
  dsimp only
  rw [heq, ← hq]
  have hzero : q - q = 0 := sub_self q
  rw [hzero]
  have hlb : q - m * 0 = q := by ring
  have hub : q + m * 0 = q := by ring
  rw [hlb, hub]
  by_cases hlt : value < q
  · rw [if_pos hlt]
    have hdiv : jsDiv (q - value) 0 = .posInf := by
      unfold jsDiv
      rw [if_pos ⟨rfl, by linarith⟩]
    rw [hdiv]
    have hmin : jsMin .posInf 1 = 1 := rfl
    rw [hmin, if_neg (by intro he; rw [he] at hlt; exact lt_irrefl q hlt)]
  · by_cases hgt : value > q
    · rw [if_neg hlt, if_pos hgt]
      have hdiv : jsDiv (value - q) 0 = .posInf := by
        unfold jsDiv
        rw [if_pos ⟨rfl, by linarith⟩]
      rw [hdiv]
      have hmin : jsMin .posInf 1 = 1 := rfl
      rw [hmin, if_neg (by intro he; rw [he] at hgt; exact lt_irrefl q hgt)]
    · have hv : value = q := le_antisymm (not_lt.mp hgt) (not_lt.mp hlt)
      rw [if_neg hlt, if_neg hgt]
      have hmin : jsMin (.fin 0) 1 = 0 := by
        show min (0 : ℝ) 1 = 0
        norm_num
      rw [hmin, if_pos hv]

/-- `zScore` on a constant array (any length): non-anomaly, score `0`. -/
lemma zScore_const (value c : ℝ) (n : ℕ) (t : ℝ) :
    StatisticalDetectors.zScore value (List.replicate n c) t = ⟨False, 0, 0⟩ := by
  rcases Nat.eq_zero_or_pos n with hn | hn
  · subst hn
    rfl
  · exact zScore_degenerate value (popVariance_replicate (by omega) c) t

/-- `mad` on a constant array (any length): non-anomaly, score `0`. -/
lemma mad_const (value c : ℝ) (n : ℕ) (t : ℝ) :
    StatisticalDetectors.mad value (List.replicate n c) t = ⟨False, 0, 0⟩ := by
  rcases Nat.eq_zero_or_pos n with hn | hn
  · subst hn
    rfl
  · apply mad_degenerate
    rw [sortAsc_replicate, median_replicate hn, List.map_replicate]
    have : |c - c| = (0 : ℝ) := by
      rw [sub_self, abs_zero]
    rw [this]
    exact median_replicate hn 0

/-- `iqr` on a constant array of length ≥ 4: the expected range collapses
to `[c, c]` and any other value is flagged with score `1`. -/
lemma iqr_const (value c : ℝ) {n : ℕ} (hn : 4 ≤ n) (m : ℝ) :
    StatisticalDetectors.iqr value (List.replicate n c) m =
      ⟨value < c ∨ value > c, if value = c then 0 else 1, (c, c)⟩ := by
  have h25 : StatisticalDetectors.percentile (sortAsc (List.replicate n c)) 25 = c := by
    rw [sortAsc_replicate]
    exact percentile_replicate (by omega) (by norm_num) (by norm_num) c
  have h75 : StatisticalDetectors.percentile (sortAsc (List.replicate n c)) 75 = c := by
    rw [sortAsc_replicate]
    exact percentile_replicate (by omega) (by norm_num) (by norm_num) c
  rw [iqr_degenerate value (by simp [List.length_replicate]; omega)
    (by rw [h25, h75]) m, h25]

/-! ## Score bounds for the ML detectors -/

lemma expectedIsolationDepth_pos {n : ℕ} (hn : 10 ≤ n) :
    0 < MLDetectors.expectedIsolationDepth n := by
  unfold MLDetectors.expectedIsolationDepth
  rw [if_neg (by omega)]
  have hcast : (10 : ℝ) ≤ (n : ℝ) := by exact_mod_cast hn
  have hlog : (1 : ℝ) < Real.log ((n : ℝ) - 1) := by
    rw [Real.lt_log_iff_exp_lt (by linarith)]
    calc Real.exp 1 < 2.7182818286 := Real.exp_one_lt_d9
      _ ≤ 9 := by norm_num
      _ ≤ (n : ℝ) - 1 := by linarith
  have hfrac : 2 * ((n : ℝ) - 1) / n < 2 := by
    rw [div_lt_iff (by linarith)]
    linarith
  linarith

/-- The isolation-forest score `2 ^ (−avgDepth/expectedDepth)` lies in
`[0, 1]`: depths are non-negative naturals and the expected depth is
positive once the length guard has passed. -/
lemma isolationForest_score_nonneg (value : ℝ) (data : List ℝ)
    (rand : ℕ → ℕ → ℝ) (numTrees : ℕ) :
    0 ≤ (MLDetectors.isolationForest value data rand numTrees).score := by
  unfold MLDetectors.isolationForest
  split
  · exact le_refl 0
  · exact (Real.rpow_pos_of_pos (by norm_num) _).le

lemma isolationForest_score_le_one (value : ℝ) (data : List ℝ)
    (rand : ℕ → ℕ → ℝ) (numTrees : ℕ) :
    (MLDetectors.isolationForest value data rand numTrees).score ≤ 1 := by
  unfold MLDetectors.isolationForest
  split
  case isTrue => exact zero_le_one
  case isFalse h =>
    apply Real.rpow_le_one_of_one_le_of_nonpos one_le_two
    apply neg_nonpos_of_nonneg
    apply div_nonneg
    · apply div_nonneg
      · apply List.sum_nonneg
        intro x hx
        obtain ⟨i, _, rfl⟩ := List.mem_map.mp hx
        exact Nat.cast_nonneg _
      · exact Nat.cast_nonneg _
    · exact (expectedIsolationDepth_pos (by omega)).le

/-- The LOF score `min(lofScore/2, 1)` lies in `[0, 1]`: distances are
absolute values and the reachability denominator is strictly positive. -/
lemma lof_score_le_one (value : ℝ) (data : List ℝ) (k : ℕ) :
    (MLDetectors.lof value data k).score ≤ 1 := by
  unfold MLDetectors.lof
  split
  · exact zero_le_one
  · exact min_le_right _ _

lemma lof_score_nonneg (value : ℝ) (data : List ℝ) (k : ℕ) :
    0 ≤ (MLDetectors.lof value data k).score := by
  unfold MLDetectors.lof
  split
  · exact le_refl 0
  · apply le_min _ zero_le_one
    have hmem : ∀ x ∈ (sortAsc (data.map (fun d => |d - value|))).take k, 0 ≤ x := by
      intro x hx
      have := List.mem_insertionSort (r := (· ≤ ·)) |>.mp (List.mem_of_mem_take hx)
      obtain ⟨d, _, rfl⟩ := List.mem_map.mp this
      exact abs_nonneg _
    have hsum : 0 ≤ ((sortAsc (data.map (fun d => |d - value|))).take k).sum :=
      List.sum_nonneg hmem
    have hget : 0 ≤ ((sortAsc (data.map (fun d => |d - value|))).take k).getD
        (((sortAsc (data.map (fun d => |d - value|))).take k).length - 1) 0 :=
      getD_nonneg hmem _
    apply div_nonneg _ (by norm_num)
    apply div_nonneg
    · exact div_nonneg hsum (Nat.cast_nonneg _)
    · linarith

/-- `anomalyCount` never exceeds the list length. -/
lemma anomalyCount_le_length :
    ∀ l : List AlgorithmScore, EnterpriseAnomalyDetector.anomalyCount l ≤ l.length
  | [] => le_refl 0
  | r :: rs => by
    unfold EnterpriseAnomalyDetector.anomalyCount
    have := anomalyCount_le_length rs
    split
    · simp only [List.length_cons]
      omega
    · simp only [List.length_cons]
      omega

/-- `anomalyCount` agrees with `List.countP` of the anomaly flag (the
spec's "count of detectors reporting isAnomaly"). -/
lemma anomalyCount_eq_countP :
    ∀ l : List AlgorithmScore,
      EnterpriseAnomalyDetector.anomalyCount l = l.countP (fun r => decide r.isAnomaly)
  | [] => rfl
  | r :: rs => by
    unfold EnterpriseAnomalyDetector.anomalyCount
    rw [List.countP_cons, anomalyCount_eq_countP rs]
    by_cases h : r.isAnomaly
    · rw [if_pos h, if_pos (by simpa using h)]
      omega
    · rw [if_neg h, if_neg (by simpa using h)]
      omega

/-- A left fold of plain addition is the sum. -/
lemma foldl_add_self : ∀ (l : List ℝ) (a : ℝ),
    l.foldl (fun acc w => acc + w) a = a + l.sum
  | [], a => by simp
  | x :: xs, a => by
    rw [List.foldl_cons, foldl_add_self xs, List.sum_cons]
    ring

/-! ## Characterization of `ensembleVote` on a non-empty result list -/

namespace EnterpriseAnomalyDetector

/-- `ensembleVote` on a non-empty list, with the `forEach` accumulators
written as sums. -/
lemma ensembleVote_eq (cfg : AdvancedDetectorConfig) (perf : String → Option ℝ)
    {results : List AlgorithmScore} (h : results ≠ []) :
    ensembleVote cfg perf results =
      (let weights := calculateAlgorithmWeights cfg perf results
       let ws := ((results.zip weights).map (fun p => p.1.score * p.2)).sum
       let ns := ws / weights.sum
       let anomalous := ns > getThreshold cfg.sensitivity
       let agreement := (anomalyCount results : ℝ) / results.length
       let conf := if anomalous then agreement * ns else (1 - agreement) * (1 - ns)
       ⟨anomalous, conf, determineSeverity ns conf, ns,
        (results.zip weights).map (fun p =>
          ⟨p.1.name, p.1.score, p.1.isAnomaly, p.1.score * p.2 / ws,
            p.1.executionTime⟩)⟩) := by
  unfold ensembleVote
  rw [if_neg h]
  dsimp only
  rw [foldl_add_map (fun p => p.1.score * p.2)
      (results.zip (calculateAlgorithmWeights cfg perf results)) 0,
    foldl_add_self (calculateAlgorithmWeights cfg perf results) 0,
    zero_add, zero_add]

lemma ensembleVote_score (cfg : AdvancedDetectorConfig) (perf : String → Option ℝ)
    {results : List AlgorithmScore} (h : results ≠ []) :
    (ensembleVote cfg perf results).score =
      ((results.zip (calculateAlgorithmWeights cfg perf results)).map
        (fun p => p.1.score * p.2)).sum /
      (calculateAlgorithmWeights cfg perf results).sum := by
  rw [ensembleVote_eq cfg perf h]

lemma ensembleVote_isAnomaly (cfg : AdvancedDetectorConfig)
    (perf : String → Option ℝ) {results : List AlgorithmScore} (h : results ≠ []) :
    (ensembleVote cfg perf results).isAnomaly ↔
      (ensembleVote cfg perf results).score > getThreshold cfg.sensitivity := by
  rw [ensembleVote_eq cfg perf h]

lemma ensembleVote_confidence (cfg : AdvancedDetectorConfig)
    (perf : String → Option ℝ) {results : List AlgorithmScore} (h : results ≠ []) :
    (ensembleVote cfg perf results).confidence =
      (if (ensembleVote cfg perf results).isAnomaly then
        ((anomalyCount results : ℝ) / results.length) *
          (ensembleVote cfg perf results).score
      else (1 - (anomalyCount results : ℝ) / results.length) *
        (1 - (ensembleVote cfg perf results).score)) := by
  rw [ensembleVote_eq cfg perf h]

lemma ensembleVote_severity (cfg : AdvancedDetectorConfig)
    (perf : String → Option ℝ) {results : List AlgorithmScore} (h : results ≠ []) :
    (ensembleVote cfg perf results).severity =
      determineSeverity (ensembleVote cfg perf results).score
        (ensembleVote cfg perf results).confidence := by
  rw [ensembleVote_eq cfg perf h]

lemma ensembleVote_algorithms (cfg : AdvancedDetectorConfig)
    (perf : String → Option ℝ) {results : List AlgorithmScore} (h : results ≠ []) :
    (ensembleVote cfg perf results).algorithms =
      (results.zip (calculateAlgorithmWeights cfg perf results)).map
        (fun p => ⟨p.1.name, p.1.score, p.1.isAnomaly,
          p.1.score * p.2 /
            ((results.zip (calculateAlgorithmWeights cfg perf results)).map
              (fun q => q.1.score * q.2)).sum,
          p.1.executionTime⟩) := by
  rw [ensembleVote_eq cfg perf h]

lemma ensembleVote_nil (cfg : AdvancedDetectorConfig) (perf : String → Option ℝ) :
    ensembleVote cfg perf [] = ⟨False, 0, .info, 0, []⟩ := by
  unfold ensembleVote
  rw [if_pos rfl]

/-- Under `adaptive` (equal) weighting every weight is `1`. -/
lemma calculateAlgorithmWeights_adaptive (cfg : AdvancedDetectorConfig)
    (perf : String → Option ℝ) (results : List AlgorithmScore)
    (hw : cfg.ensembleWeighting = .adaptive) :
    calculateAlgorithmWeights cfg perf results = results.map (fun _ => 1) := by
  unfold calculateAlgorithmWeights
  rw [hw]

/-- The two branches of `detect`, as equations. -/
lemma detect_short (cfg : AdvancedDetectorConfig) (perf : String → Option ℝ)
    (fmt2 fmt1 : ℝ → String) (rand : ℕ → ℕ → ℝ) (dp : DataPoint)
    (hist : List DataPoint) (h : hist.length < cfg.minDataPoints) :
    detect cfg perf fmt2 fmt1 rand dp hist =
      createNonAnomalyResult dp "Insufficient historical data" 0 := by
  unfold detect
  rw [if_pos h]

lemma detect_run (cfg : AdvancedDetectorConfig) (perf : String → Option ℝ)
    (fmt2 fmt1 : ℝ → String) (rand : ℕ → ℕ → ℝ) (dp : DataPoint)
    (hist : List DataPoint) (h : ¬ hist.length < cfg.minDataPoints) :
    detect cfg perf fmt2 fmt1 rand dp hist =
      (let values := hist.map (fun d => d.value)
       let er := ensembleVote cfg perf (configuredResults cfg rand dp.value values)
       ⟨er.isAnomaly, er.confidence, er.severity, er.score, er.algorithms,
        generateExplanation fmt2 fmt1 dp.value values er.isAnomaly,
        ⟨0, hist.length, modelVersion, "ensemble"⟩⟩) := by
  unfold detect
  rw [if_neg h]

/-- With `ensemble` among the configured algorithms every detector runs. -/
lemma configuredResults_ensemble (cfg : AdvancedDetectorConfig) (rand : ℕ → ℕ → ℝ)
    (value : ℝ) (values : List ℝ) (h : "ensemble" ∈ cfg.algorithms) :
    configuredResults cfg rand value values =
      [runZScore cfg value values, runMAD value values, runIQR value values,
       runIsolationForest rand value values, runLOF value values] := by
  have hs : ∀ a, shouldRunAlgorithm cfg a := fun _ => Or.inl h
  unfold configuredResults
  rw [if_pos (hs "zscore"), if_pos (hs "mad"), if_pos (hs "iqr"),
    if_pos (hs "isolation-forest"), if_pos (hs "lof")]
  rfl

lemma runIsolationForest_score (rand : ℕ → ℕ → ℝ) (value : ℝ) (data : List ℝ) :
    (runIsolationForest rand value data).score =
      (MLDetectors.isolationForest value data rand 100).score := rfl

lemma runLOF_score (value : ℝ) (data : List ℝ) :
    (runLOF value data).score = (MLDetectors.lof value data 5).score := rfl

lemma generateExplanation_expectedRange (fmt2 fmt1 : ℝ → String) (value : ℝ)
    (data : List ℝ) (p : Prop) :
    (generateExplanation fmt2 fmt1 value data p).expectedRange =
      (mean data - 2 * popStdDev data, mean data + 2 * popStdDev data) := rfl

lemma generateExplanation_deviation (fmt2 fmt1 : ℝ → String) (value : ℝ)
    (data : List ℝ) (p : Prop) :
    (generateExplanation fmt2 fmt1 value data p).deviation =
      |if popStdDev data > 0 then (value - mean data) / popStdDev data else 0| := rfl

end EnterpriseAnomalyDetector

/-! ## Concrete fixtures for the value-level claims -/

/-- The constructor's default configuration:
`{algorithms: ['ensemble'], sensitivity: 'medium', contextWindow: 168,
seasonalityPeriods: [24, 168], adaptiveLearning: true,
ensembleWeighting: 'adaptive', minDataPoints: 30}`. -/
def defaultConfig : AdvancedDetectorConfig :=
  ⟨["ensemble"], .medium, 168, [24, 168], true, .adaptive, 30⟩

/-- An empty performance table (the in-core `performance` map is never
written, so this is the shipped state). -/
def noPerf : String → Option ℝ := fun _ => none

/-- A placeholder `toFixed` rendering (the claims do not depend on it). -/
def fmt0 : ℝ → String := fun _ => ""

/-- A fixed random stream (the claims hold for every stream). -/
def rand0 : ℕ → ℕ → ℝ := fun _ _ => 0

/-- Thirty identical historical readings of value 100. -/
def constHist : List DataPoint := List.replicate 30 ⟨0, 100, "cpu"⟩

/-- The candidate reading of value 1000. -/
def spikePoint : DataPoint := ⟨0, 1000, "cpu"⟩

/-- `detect` at the C2 scenario: value 1000 against `[100]*30` under the
default configuration. -/
def spikeResult : AnomalyResult :=
  EnterpriseAnomalyDetector.detect defaultConfig noPerf fmt0 fmt0 rand0
    spikePoint constHist

section SpikeEval

open EnterpriseAnomalyDetector

lemma spike_vals : constHist.map (fun d => d.value) = List.replicate 30 (100 : ℝ) := by
  rw [constHist, List.map_replicate]

lemma spike_zscore :
    runZScore defaultConfig 1000 (List.replicate 30 (100 : ℝ)) =
      ⟨"zscore", 0, False, 0, 0⟩ := by
  unfold runZScore
  rw [zScore_const]

lemma spike_mad :
    runMAD 1000 (List.replicate 30 (100 : ℝ)) = ⟨"mad", 0, False, 0, 0⟩ := by
  unfold runMAD
  rw [mad_const]

lemma spike_iqr :
    runIQR 1000 (List.replicate 30 (100 : ℝ)) =
      ⟨"iqr", 1, (1000 : ℝ) < 100 ∨ (1000 : ℝ) > 100, 0, 0⟩ := by
  unfold runIQR
  rw [iqr_const 1000 100 (by norm_num) 1.5]
  dsimp only
  rw [if_neg (by norm_num : ¬ (1000 : ℝ) = 100)]

lemma spike_entries :
    configuredResults defaultConfig rand0 1000 (List.replicate 30 (100 : ℝ)) =
      [⟨"zscore", 0, False, 0, 0⟩, ⟨"mad", 0, False, 0, 0⟩,
       ⟨"iqr", 1, (1000 : ℝ) < 100 ∨ (1000 : ℝ) > 100, 0, 0⟩,
       runIsolationForest rand0 1000 (List.replicate 30 (100 : ℝ)),
       runLOF 1000 (List.replicate 30 (100 : ℝ))] := by
  rw [configuredResults_ensemble defaultConfig rand0 1000 _
      (by rw [defaultConfig]; exact List.mem_singleton.mpr rfl),
    spike_zscore, spike_mad, spike_iqr]

/-- Full evaluation of the C2 scenario: the ensemble does **not** flag the
spike, the severity is `info`, and the reported deviation is `0` (the
constant history has zero variance). -/
lemma spikeResult_eval :
    ¬ spikeResult.isAnomaly ∧ spikeResult.severity = Severity.info ∧
      spikeResult.explanation.deviation = 0 := by
  have hlen : ¬ (constHist.length < defaultConfig.minDataPoints) := by
    rw [constHist, defaultConfig]
    simp
  have hdet := detect_run defaultConfig noPerf fmt0 fmt0 rand0 spikePoint constHist hlen
  have hval : spikePoint.value = (1000 : ℝ) := rfl
  rw [spike_vals, hval] at hdet
  dsimp only at hdet
  rw [spike_entries] at hdet
  set es : List AlgorithmScore :=
    [⟨"zscore", 0, False, 0, 0⟩, ⟨"mad", 0, False, 0, 0⟩,
     ⟨"iqr", 1, (1000 : ℝ) < 100 ∨ (1000 : ℝ) > 100, 0, 0⟩,
     runIsolationForest rand0 1000 (List.replicate 30 (100 : ℝ)),
     runLOF 1000 (List.replicate 30 (100 : ℝ))] with hes
  have hne : es ≠ [] := by
    rw [hes]
    exact List.cons_ne_nil _ _
  have hIso0 : 0 ≤ (runIsolationForest rand0 1000 (List.replicate 30 (100 : ℝ))).score := by
    rw [runIsolationForest_score]
    exact isolationForest_score_nonneg _ _ _ _
  have hIso1 : (runIsolationForest rand0 1000 (List.replicate 30 (100 : ℝ))).score ≤ 1 := by
    rw [runIsolationForest_score]
    exact isolationForest_score_le_one _ _ _ _
  have hLof0 : 0 ≤ (runLOF 1000 (List.replicate 30 (100 : ℝ))).score := by
    rw [runLOF_score]
    exact lof_score_nonneg _ _ _
  have hLof1 : (runLOF 1000 (List.replicate 30 (100 : ℝ))).score ≤ 1 := by
    rw [runLOF_score]
    exact lof_score_le_one _ _ _
  have hws := ensembleVote_score defaultConfig noPerf hne
  rw [calculateAlgorithmWeights_adaptive defaultConfig noPerf es rfl] at hws
  rw [hes] at hws
  simp only [List.map_cons, List.map_nil, List.zip_cons_cons, List.zip_nil_right,
    List.sum_cons, List.sum_nil] at hws
  rw [← hes] at hws
  have hs_le : (ensembleVote defaultConfig noPerf es).score ≤ 0.6 := by
    rw [hws]
    rw [div_le_iff (by norm_num)]
    nlinarith [hIso1, hLof1]
  have hs_ge : 0 ≤ (ensembleVote defaultConfig noPerf es).score := by
    rw [hws]
    apply div_nonneg _ (by norm_num)
    nlinarith [hIso0, hLof0]
  have hnot : ¬ (ensembleVote defaultConfig noPerf es).isAnomaly := by
    rw [ensembleVote_isAnomaly defaultConfig noPerf hne]
    have hth : getThreshold defaultConfig.sensitivity = 0.6 := rfl
    rw [hth]
    exact not_lt.mpr hs_le
  have hlen5 : es.length = 5 := by
    rw [hes]
    rfl
  have ha_le : (anomalyCount es : ℝ) / es.length ≤ 1 := by
    rw [hlen5]
    rw [div_le_one (by norm_num)]
    have := anomalyCount_le_length es
    rw [hlen5] at this
    exact_mod_cast this
  have ha_ge : 0 ≤ (anomalyCount es : ℝ) / es.length :=
    div_nonneg (Nat.cast_nonneg _) (Nat.cast_nonneg _)
  have hconf := ensembleVote_confidence defaultConfig noPerf hne
  rw [if_neg hnot] at hconf
  have hc_le : (ensembleVote defaultConfig noPerf es).confidence ≤ 1 := by
    rw [hconf]
    nlinarith [ha_le, ha_ge, hs_le, hs_ge]
  have hc_ge : 0 ≤ (ensembleVote defaultConfig noPerf es).confidence := by
    rw [hconf]
    apply mul_nonneg <;> nlinarith [ha_le, hs_le]
  have hcomb : (ensembleVote defaultConfig noPerf es).score *
      (ensembleVote defaultConfig noPerf es).confidence ≤ 0.6 := by
    nlinarith [hs_le, hs_ge, hc_le, hc_ge]
  have hsev : (ensembleVote defaultConfig noPerf es).severity = .info := by
    rw [ensembleVote_severity defaultConfig noPerf hne]
    unfold determineSeverity
    rw [if_neg (by linarith), if_neg (by linarith)]
  have hdev : ∀ p : Prop,
      (generateExplanation fmt0 fmt0 1000 (List.replicate 30 (100 : ℝ)) p).deviation
        = 0 := by
    intro p
    rw [generateExplanation_deviation]
    have h0 : popStdDev (List.replicate 30 (100 : ℝ)) = 0 := by
      unfold popStdDev
      rw [popVariance_replicate (by norm_num) 100, Real.sqrt_zero]
    rw [h0, if_neg (lt_irrefl 0), abs_zero]
  rw [spikeResult, hdet]
  exact ⟨hnot, hsev, hdev _⟩

end SpikeEval

/-! ## Sorting lemmas for the LOF evaluation -/

lemma orderedInsert_replicate_self (n : ℕ) (a : ℝ) :
    (List.replicate n a).orderedInsert (· ≤ ·) a = List.replicate (n + 1) a := by
  cases n with
  | zero => rfl
  | succ m =>
    rw [List.replicate_succ, List.orderedInsert, if_pos le_rfl]
    rw [List.replicate_succ, List.replicate_succ]

/-- Sorting `n` copies of `a` followed by one smaller element `b` moves
`b` to the front. -/
lemma sortAsc_replicate_append {a b : ℝ} (h : b < a) :
    ∀ n : ℕ, sortAsc (List.replicate n a ++ [b]) = b :: List.replicate n a
  | 0 => by
    simp [sortAsc, List.insertionSort]
  | n + 1 => by
    rw [List.replicate_succ, List.cons_append]
    unfold sortAsc at sortAsc_replicate_append ⊢
    rw [List.insertionSort, sortAsc_replicate_append h n]
    rw [List.orderedInsert, if_neg (not_le.mpr h)]
    rw [orderedInsert_replicate_self, List.replicate_succ]

section LofEval

open EnterpriseAnomalyDetector

/-- A configuration running only the `lof` detector, equal weighting,
six required points. -/
def lofConfig : AdvancedDetectorConfig :=
  ⟨["lof"], .medium, 168, [24, 168], true, .adaptive, 6⟩

/-- Six readings: five zeros and one ten (mean 5/3). -/
def mixedHist : List DataPoint :=
  [⟨0, 0, "cpu"⟩, ⟨0, 0, "cpu"⟩, ⟨0, 0, "cpu"⟩, ⟨0, 0, "cpu"⟩, ⟨0, 0, "cpu"⟩,
   ⟨0, 10, "cpu"⟩]

lemma configuredResults_lofOnly (rand : ℕ → ℕ → ℝ) (v : ℝ) (values : List ℝ) :
    configuredResults lofConfig rand v values = [runLOF v values] := by
  unfold configuredResults shouldRunAlgorithm lofConfig
  rw [if_neg (by decide), if_neg (by decide), if_neg (by decide),
    if_neg (by decide), if_pos (by decide)]
  rfl

/-- LOF score of the candidate `5` against `[0,0,0,0,0,10]`:
all six distances are `5`, so `lofScore = 5/(5+0.0001)` and the
normalized score is `25000/50001 ≈ 0.49999`. -/
lemma lof_mixed_five :
    (MLDetectors.lof 5 [0, 0, 0, 0, 0, (10 : ℝ)] 5).score = 25000 / 50001 := by
  unfold MLDetectors.lof
  rw [if_neg (by norm_num)]
  dsimp only
  have hmap : [0, 0, 0, 0, 0, (10 : ℝ)].map (fun d => |d - 5|) = List.replicate 6 5 := by
    norm_num [List.map]
    rfl
  rw [hmap, sortAsc_replicate, List.take_replicate]
  have hmin : min 5 6 = 5 := by norm_num
  rw [hmin]
  rw [List.sum_replicate, List.length_replicate]
  rw [getD_replicate 5 (by norm_num)]
  rw [nsmul_eq_mul]
  have hlof : ((5 : ℕ) : ℝ) * 5 / ((5 : ℕ) : ℝ) / (5 + 0.0001) = 50000 / 50001 := by
    norm_num
  rw [hlof]
  rw [min_eq_left (by norm_num)]
  norm_num

/-- LOF score of the candidate `10` against `[0,0,0,0,0,10]`: the five
nearest distances are `[0,10,10,10,10]`, so `lofScore = 8/(10+0.0001)`
and the normalized score is `40000/100001 ≈ 0.39996` — smaller than for
the nearer candidate `5`. -/
lemma lof_mixed_ten :
    (MLDetectors.lof 10 [0, 0, 0, 0, 0, (10 : ℝ)] 5).score = 40000 / 100001 := by
  unfold MLDetectors.lof
  rw [if_neg (by norm_num)]
  dsimp only
  have hmap : [0, 0, 0, 0, 0, (10 : ℝ)].map (fun d => |d - 10|) =
      List.replicate 5 10 ++ [0] := by
    norm_num [List.map]
    rfl
  rw [hmap, sortAsc_replicate_append (by norm_num) 5]
  have htake : (0 :: List.replicate 5 (10 : ℝ)).take 5 = 0 :: List.replicate 4 10 := rfl
  rw [htake]
  have hsum : ((0 : ℝ) :: List.replicate 4 10).sum = 40 := by
    rw [List.sum_cons, List.sum_replicate, nsmul_eq_mul]
    norm_num
  rw [hsum]
  have hlen : ((0 : ℝ) :: List.replicate 4 10).length = 5 := by
    rw [List.length_cons, List.length_replicate]
  rw [hlen]
  have hget : ((0 : ℝ) :: List.replicate 4 10).getD (5 - 1) 0 = 10 := by
    show (List.replicate 4 (10 : ℝ)).getD 3 0 = 10
    exact getD_replicate 10 (by norm_num)
  rw [hget]
  rw [min_eq_left (by norm_num)]
  norm_num

/-- A single-detector vote under equal weighting returns that detector's
score unchanged. -/
lemma ensembleVote_single_adaptive (cfg : AdvancedDetectorConfig)
    (perf : String → Option ℝ) (e : AlgorithmScore)
    (hw : cfg.ensembleWeighting = .adaptive) :
    (ensembleVote cfg perf [e]).score = e.score := by
  rw [ensembleVote_score cfg perf (List.cons_ne_nil e [])]
  rw [calculateAlgorithmWeights_adaptive cfg perf [e] hw]
  simp

/-- `detect` under `lofConfig` exposes exactly the LOF score. -/
lemma detect_lofConfig_score (dp : DataPoint) :
    (detect lofConfig noPerf fmt0 fmt0 rand0 dp mixedHist).score =
      (MLDetectors.lof dp.value [0, 0, 0, 0, 0, (10 : ℝ)] 5).score := by
  have hlen : ¬ (mixedHist.length < lofConfig.minDataPoints) := by
    rw [mixedHist, lofConfig]
    norm_num
  rw [detect_run lofConfig noPerf fmt0 fmt0 rand0 dp mixedHist hlen]
  dsimp only
  have hvals : mixedHist.map (fun d => d.value) = [0, 0, 0, 0, 0, (10 : ℝ)] := rfl
  rw [hvals, configuredResults_lofOnly]
  rw [ensembleVote_single_adaptive lofConfig noPerf _ rfl]
  rw [runLOF_score]

end LofEval

/-! ## Monotonicity of the z-score detector -/

lemma zScore_score_mono {data : List ℝ} {t : ℝ} (ht : 0 < t) {v1 v2 : ℝ}
    (h : |v1 - mean data| ≤ |v2 - mean data|) :
    (StatisticalDetectors.zScore v1 data t).score ≤
      (StatisticalDetectors.zScore v2 data t).score := by
  unfold StatisticalDetectors.zScore
  by_cases hlen : data.length < 2
  · rw [if_pos hlen, if_pos hlen]
  · rw [if_neg hlen, if_neg hlen]
    dsimp only
    by_cases hsd : Real.sqrt ((data.map (fun b => (b - mean data) ^ 2)).sum /
        (data.length : ℝ)) = 0
    · rw [if_pos hsd, if_pos hsd]
    · rw [if_neg hsd, if_neg hsd]
      dsimp only
      apply min_le_min _ le_rfl
      have hspos : 0 < |Real.sqrt ((data.map (fun b => (b - mean data) ^ 2)).sum /
          (data.length : ℝ))| := abs_pos.mpr hsd
      have habs : |(v1 - mean data) / Real.sqrt ((data.map
            (fun b => (b - mean data) ^ 2)).sum / (data.length : ℝ))| ≤
          |(v2 - mean data) / Real.sqrt ((data.map
            (fun b => (b - mean data) ^ 2)).sum / (data.length : ℝ))| := by
        rw [abs_div, abs_div]
        exact div_le_div_of_nonneg_right h hspos.le
      exact div_le_div_of_nonneg_right habs ht.le

/-! ## Remaining helpers and fixtures -/

lemma sum_map_div (l : List ℝ) (S : ℝ) :
    (l.map (fun x => x / S)).sum = l.sum / S := by
  induction l with
  | nil => simp
  | cons x xs ih =>
    rw [List.map_cons, List.sum_cons, List.sum_cons, ih, add_div]

/-- A configuration running only the `zscore` detector. -/
def zscoreConfig : AdvancedDetectorConfig :=
  ⟨["zscore"], .medium, 168, [24, 168], true, .adaptive, 2⟩

/-- A configuration explicitly naming only an unknown algorithm. -/
def unknownConfig : AdvancedDetectorConfig :=
  ⟨["frobnicate"], .medium, 168, [24, 168], true, .adaptive, 30⟩

/-- A second random stream, distinct from `rand0`. -/
def rand1 : ℕ → ℕ → ℝ := fun _ _ => 1 / 2

/-- Two readings with mean 2. -/
def twoHist : List DataPoint := [⟨0, 1, "cpu"⟩, ⟨0, 3, "cpu"⟩]

/-- Two concrete detector results (scores 0.5 and 0.3). -/
def twoResults : List AlgorithmScore :=
  [⟨"zscore", 0.5, True, 0, 0⟩, ⟨"mad", 0.3, False, 0, 0⟩]

namespace EnterpriseAnomalyDetector

lemma configuredResults_zscoreOnly (cfg : AdvancedDetectorConfig)
    (rand : ℕ → ℕ → ℝ) (v : ℝ) (values : List ℝ)
    (halgs : cfg.algorithms = ["zscore"]) :
    configuredResults cfg rand v values = [runZScore cfg v values] := by
  unfold configuredResults shouldRunAlgorithm
  rw [halgs]
  rw [if_pos (Or.inr (by decide)), if_neg (by decide), if_neg (by decide),
    if_neg (by decide), if_neg (by decide)]
  rfl

lemma configuredResults_unknown (rand : ℕ → ℕ → ℝ) (v : ℝ) (values : List ℝ) :
    configuredResults unknownConfig rand v values = [] := by
  unfold configuredResults shouldRunAlgorithm unknownConfig
  rw [if_neg (by decide), if_neg (by decide), if_neg (by decide),
    if_neg (by decide), if_neg (by decide)]
  rfl

end EnterpriseAnomalyDetector

/-! ## The claims -/

section Claims

open EnterpriseAnomalyDetector StatisticalDetectors

/-- `[0,5,0,0]` sorts to `[0,0,0,5]`. -/
lemma sortAsc_madExample : sortAsc [0, 5, 0, 0] = [0, 0, 0, (5 : ℝ)] := by
  norm_num [sortAsc, List.insertionSort, List.orderedInsert]

/-- The middle of the sorted list `[0,0,0,5]` is `0`. -/
lemma median_madExample_sorted :
    StatisticalDetectors.median [0, 0, 0, (5 : ℝ)] = 0 := by
  show ((0 : ℝ) + 0) / 2 = 0
  norm_num

/-- The middle of the *unsorted* deviations `[0,5,0,0]` is `5/2`: this is
what the source's `mad` uses as its guard quantity. -/
lemma median_madExample_unsorted :
    StatisticalDetectors.median [0, 5, 0, (0 : ℝ)] = 5 / 2 := by
  show ((5 : ℝ) + 0) / 2 = 5 / 2
  norm_num

/-- The data `[0,5,0,0]` has true MAD zero (median of the sorted absolute
deviations), yet `mad` flags the candidate `100` with score 1: the
source's guard reads the middle of the deviations in original data order
(`5/2`), so the zero-MAD guard never fires. -/
lemma mad_madExample :
    StatisticalDetectors.median (sortAsc (([0, 5, 0, 0] : List ℝ).map
      (fun x => |x - StatisticalDetectors.median (sortAsc [0, 5, 0, 0])|))) = 0 ∧
    (StatisticalDetectors.mad 100 [0, 5, 0, 0] 3.5).isAnomaly ∧
    (StatisticalDetectors.mad 100 [0, 5, 0, 0] 3.5).score = 1 := by
  have hmap : ([0, 5, 0, 0] : List ℝ).map (fun x => |x - 0|) = [0, 5, 0, 0] := by
    norm_num [List.map]
  refine ⟨?_, ?_⟩
  · rw [sortAsc_madExample, median_madExample_sorted, hmap, sortAsc_madExample,
      median_madExample_sorted]
  · unfold StatisticalDetectors.mad
    rw [if_neg (by decide : ¬ ([0, 5, 0, 0] : List ℝ).length < 2)]
    dsimp only
    rw [sortAsc_madExample, median_madExample_sorted, hmap,
      median_madExample_unsorted]
    rw [if_neg (by norm_num : ¬ (5 : ℝ) / 2 = 0)]
    dsimp only
    have habs : |(100 : ℝ) - 0| = 100 := by norm_num
    rw [habs]
    constructor
    · show (0.6745 : ℝ) * 100 / (5 / 2) > 3.5
      norm_num
    · show min ((0.6745 : ℝ) * 100 / (5 / 2) / 3.5) 1 = 1
      rw [min_eq_right (by norm_num)]

/-- C1 (counterexample): the claim "degenerate dispersion always yields
isAnomaly=false with score 0" fails for two detectors.  `iqr`: on the
constant array `[1,1,1,1]` (zero IQR) the candidate `5` is flagged with
score 1 (the JS distance is `4/0 = +Infinity`, clamped to `1` by
`Math.min`).  `mad`: the data `[0,5,0,0]` has MAD zero — the median of
its absolute deviations `[0,5,0,0]` is `0` — yet the candidate `100` is
flagged with score 1, because the source computes its guard quantity as
the middle of the *unsorted* deviations array (`5/2` here), so the
zero-MAD guard never fires. -/
theorem C1_counterexample :
    ((StatisticalDetectors.iqr 5 (List.replicate 4 (1 : ℝ)) 1.5).isAnomaly ∧
     (StatisticalDetectors.iqr 5 (List.replicate 4 (1 : ℝ)) 1.5).score = 1) ∧
    (StatisticalDetectors.median (sortAsc (([0, 5, 0, 0] : List ℝ).map
        (fun x => |x - StatisticalDetectors.median (sortAsc [0, 5, 0, 0])|))) = 0 ∧
     (StatisticalDetectors.mad 100 [0, 5, 0, 0] 3.5).isAnomaly ∧
     (StatisticalDetectors.mad 100 [0, 5, 0, 0] 3.5).score = 1) := by
  constructor
  · rw [iqr_const 5 1 (by norm_num) 1.5]
    exact ⟨Or.inr (by norm_num), by rw [if_neg (by norm_num : ¬ (5 : ℝ) = 1)]⟩
  · exact mad_madExample

/-- C1 (amended): `zScore` with zero population variance returns
`isAnomaly=false`, score `0`, and no division error.  `mad` does so
exactly when its *computed* guard quantity is zero — the source applies
its `median` helper to the deviations in original data order, which can
differ from the data's MAD (the counterexample above shows a data set
with true MAD zero that is still flagged).  `iqr` with a zero
interquartile range returns the width-0 expected range `[q1, q1]`,
scores the collapsed point itself `0` and is non-anomalous there, but
flags every other value with score `1` (IEEE `+Infinity` clamped by
`Math.min`) — still without raising. -/
theorem C1_degenerate_dispersion (value : ℝ) (data : List ℝ) (tz tm m : ℝ) :
    (popVariance data = 0 →
      StatisticalDetectors.zScore value data tz = ⟨False, 0, 0⟩) ∧
    (StatisticalDetectors.median
        (data.map (fun x => |x - StatisticalDetectors.median (sortAsc data)|)) = 0 →
      StatisticalDetectors.mad value data tm = ⟨False, 0, 0⟩) ∧
    (¬ data.length < 4 →
      StatisticalDetectors.percentile (sortAsc data) 75 =
        StatisticalDetectors.percentile (sortAsc data) 25 →
      StatisticalDetectors.iqr value data m =
        ⟨value < StatisticalDetectors.percentile (sortAsc data) 25 ∨
           value > StatisticalDetectors.percentile (sortAsc data) 25,
         if value = StatisticalDetectors.percentile (sortAsc data) 25 then 0 else 1,
         (StatisticalDetectors.percentile (sortAsc data) 25,
          StatisticalDetectors.percentile (sortAsc data) 25)⟩) :=
  ⟨fun h => zScore_degenerate value h tz,
   fun h => mad_degenerate value h tm,
   fun h4 heq => iqr_degenerate value h4 heq m⟩

/-- C1 (witness): the amended statement at the constant array `[2,2,2,2]`
with candidate `5`. -/
theorem C1_witness :
    StatisticalDetectors.zScore 5 (List.replicate 4 (2 : ℝ)) 3 = ⟨False, 0, 0⟩ ∧
    StatisticalDetectors.mad 5 (List.replicate 4 (2 : ℝ)) 3.5 = ⟨False, 0, 0⟩ ∧
    StatisticalDetectors.iqr 5 (List.replicate 4 (2 : ℝ)) 1.5 =
      ⟨(5 : ℝ) < 2 ∨ (5 : ℝ) > 2, 1, (2, 2)⟩ := by
  have h := C1_degenerate_dispersion 5 (List.replicate 4 (2 : ℝ)) 3 3.5 1.5
  have hperc : StatisticalDetectors.percentile (sortAsc (List.replicate 4 (2 : ℝ))) 25
      = 2 := by
    rw [sortAsc_replicate]
    exact percentile_replicate (by norm_num) (by norm_num) (by norm_num) 2
  have hperc75 : StatisticalDetectors.percentile (sortAsc (List.replicate 4 (2 : ℝ))) 75
      = 2 := by
    rw [sortAsc_replicate]
    exact percentile_replicate (by norm_num) (by norm_num) (by norm_num) 2
  refine ⟨h.1 (popVariance_replicate (by norm_num) 2), ?_, ?_⟩
  · apply h.2.1
    rw [sortAsc_replicate, median_replicate (by norm_num) 2, List.map_replicate]
    rw [show |(2 : ℝ) - 2| = 0 by rw [sub_self, abs_zero]]
    exact median_replicate (by norm_num) 0
  · have := h.2.2 (by rw [List.length_replicate]; norm_num)
      (by rw [hperc, hperc75])
    rw [this, hperc]
    rw [if_neg (by norm_num : ¬ (5 : ℝ) = 2)]

/-- C2 (counterexample): with the default configuration, `detect` on value
1000 against `[100]*30` does **not** return `isAnomaly=true` with severity
warning/critical and deviation > 3: the constant history has zero
variance, so z-score and MAD contribute 0, only IQR fires, and the
weighted score stays at or below the 0.6 threshold while the reported
deviation is 0. -/
theorem C2_counterexample :
    ¬ (spikeResult.isAnomaly ∧
       (spikeResult.severity = .warning ∨ spikeResult.severity = .critical) ∧
       spikeResult.explanation.deviation > 3) := by
  intro h
  exact spikeResult_eval.1 h.1

/-- C2 (amended): with the default configuration, `detect` applied to
value 1000 against the 30-point constant series `[100,...,100]` returns
`isAnomaly=false`, severity `info`, and `explanation.deviation = 0`. -/
theorem C2_spike_verdict :
    ¬ spikeResult.isAnomaly ∧ spikeResult.severity = Severity.info ∧
      spikeResult.explanation.deviation = 0 :=
  spikeResult_eval

/-- C3: the ensemble verdict on a non-empty detector list:
`score = Σ(scoreᵢ·weightᵢ)/Σ(weightᵢ)`; `isAnomaly = score > threshold`
with the sensitivity table {low: 0.7, medium: 0.6, high: 0.5,
adaptive: 0.6}; `confidence = agreement·score` when anomalous, else
`(1-agreement)·(1-score)`, where agreement is the fraction of detectors
reporting an anomaly.  With no detectors the verdict is the non-anomaly
default with score 0. -/
theorem C3_ensemble_vote (cfg : AdvancedDetectorConfig) (perf : String → Option ℝ)
    (results : List AlgorithmScore) :
    (results ≠ [] →
      (ensembleVote cfg perf results).score =
        ((results.zip (calculateAlgorithmWeights cfg perf results)).map
          (fun p => p.1.score * p.2)).sum /
          (calculateAlgorithmWeights cfg perf results).sum ∧
      ((ensembleVote cfg perf results).isAnomaly ↔
        (ensembleVote cfg perf results).score > getThreshold cfg.sensitivity) ∧
      (ensembleVote cfg perf results).confidence =
        (if (ensembleVote cfg perf results).isAnomaly then
          ((results.countP (fun r => decide r.isAnomaly) : ℕ) : ℝ) / results.length *
            (ensembleVote cfg perf results).score
        else (1 - ((results.countP (fun r => decide r.isAnomaly) : ℕ) : ℝ) /
            results.length) * (1 - (ensembleVote cfg perf results).score))) ∧
    (getThreshold .low = 0.7 ∧ getThreshold .medium = 0.6 ∧
     getThreshold .high = 0.5 ∧ getThreshold .adaptive = 0.6) ∧
    ensembleVote cfg perf [] = ⟨False, 0, .info, 0, []⟩ := by
  refine ⟨fun h => ⟨ensembleVote_score cfg perf h, ensembleVote_isAnomaly cfg perf h, ?_⟩,
    ⟨rfl, rfl, rfl, rfl⟩, ensembleVote_nil cfg perf⟩
  rw [ensembleVote_confidence cfg perf h, anomalyCount_eq_countP]

/-- C4 (theorem, amended): a call with fewer than `minDataPoints`
historical points never raises and returns `isAnomaly=false`,
`algorithms=[]`, `metadata.dataPointsAnalyzed=0`, and the reason string
`"Insufficient historical data"` (capital I — the claim quoted it
lower-case). -/
theorem C4_short_circuit (cfg : AdvancedDetectorConfig) (perf : String → Option ℝ)
    (fmt2 fmt1 : ℝ → String) (rand : ℕ → ℕ → ℝ) (dp : DataPoint)
    (hist : List DataPoint) (h : hist.length < cfg.minDataPoints) :
    ¬ (detect cfg perf fmt2 fmt1 rand dp hist).isAnomaly ∧
    (detect cfg perf fmt2 fmt1 rand dp hist).algorithms = [] ∧
    (detect cfg perf fmt2 fmt1 rand dp hist).metadata.dataPointsAnalyzed = 0 ∧
    (detect cfg perf fmt2 fmt1 rand dp hist).explanation.reason =
      "Insufficient historical data" := by
  rw [detect_short cfg perf fmt2 fmt1 rand dp hist h]
  exact ⟨not_false, rfl, rfl, rfl⟩

/-- C4 (witness): the short-circuit at an empty history under the default
configuration. -/
theorem C4_witness :
    ¬ (detect defaultConfig noPerf fmt0 fmt0 rand0 spikePoint []).isAnomaly ∧
    (detect defaultConfig noPerf fmt0 fmt0 rand0 spikePoint []).algorithms = [] ∧
    (detect defaultConfig noPerf fmt0 fmt0 rand0 spikePoint
      []).metadata.dataPointsAnalyzed = 0 ∧
    (detect defaultConfig noPerf fmt0 fmt0 rand0 spikePoint []).explanation.reason =
      "Insufficient historical data" :=
  C4_short_circuit defaultConfig noPerf fmt0 fmt0 rand0 spikePoint []
    (by rw [defaultConfig]; norm_num)

/-- C4 (counterexample): the short-circuit reason string is
`"Insufficient historical data"`, not the claim's exact quote
`"insufficient historical data"`. -/
theorem C4_counterexample :
    (detect defaultConfig noPerf fmt0 fmt0 rand0 spikePoint
      []).explanation.reason ≠ "insufficient historical data" := by
  rw [detect_short defaultConfig noPerf fmt0 fmt0 rand0 spikePoint []
    (by rw [defaultConfig]; norm_num)]
  decide

/-- C5: whenever at least one detector ran and the weighted raw-score sum
`Σ scoreⱼ·weightⱼ` is positive, each contribution equals
`scoreᵢ·weightᵢ / Σ scoreⱼ·weightⱼ` and the contributions sum to exactly 1. -/
theorem C5_contributions (cfg : AdvancedDetectorConfig) (perf : String → Option ℝ)
    (results : List AlgorithmScore) (h : results ≠ [])
    (hS : 0 < ((results.zip (calculateAlgorithmWeights cfg perf results)).map
      (fun p => p.1.score * p.2)).sum) :
    (ensembleVote cfg perf results).algorithms.map (fun a => a.contribution) =
      (results.zip (calculateAlgorithmWeights cfg perf results)).map
        (fun p => p.1.score * p.2 /
          ((results.zip (calculateAlgorithmWeights cfg perf results)).map
            (fun q => q.1.score * q.2)).sum) ∧
    ((ensembleVote cfg perf results).algorithms.map
      (fun a => a.contribution)).sum = 1 := by
  have h1 : (ensembleVote cfg perf results).algorithms.map (fun a => a.contribution) =
      (results.zip (calculateAlgorithmWeights cfg perf results)).map
        (fun p => p.1.score * p.2 /
          ((results.zip (calculateAlgorithmWeights cfg perf results)).map
            (fun q => q.1.score * q.2)).sum) := by
    rw [ensembleVote_algorithms cfg perf h, List.map_map]
    rfl
  refine ⟨h1, ?_⟩
  rw [h1]
  rw [show (fun p : AlgorithmScore × ℝ => p.1.score * p.2 /
      ((results.zip (calculateAlgorithmWeights cfg perf results)).map
        (fun q => q.1.score * q.2)).sum) =
      ((fun x : ℝ => x / ((results.zip (calculateAlgorithmWeights cfg perf results)).map
        (fun q => q.1.score * q.2)).sum) ∘ (fun p => p.1.score * p.2)) from rfl]
  rw [← List.map_map, sum_map_div]
  exact div_self (ne_of_gt hS)

/-- C5 (witness): two concrete detector results under equal weighting:
contributions `[5/8, 3/8]` summing to 1. -/
theorem C5_witness :
    (ensembleVote defaultConfig noPerf twoResults).algorithms.map
        (fun a => a.contribution) =
      (twoResults.zip
        (calculateAlgorithmWeights defaultConfig noPerf twoResults)).map
        (fun p => p.1.score * p.2 /
          ((twoResults.zip
            (calculateAlgorithmWeights defaultConfig noPerf twoResults)).map
            (fun q => q.1.score * q.2)).sum) ∧
    ((ensembleVote defaultConfig noPerf twoResults).algorithms.map
        (fun a => a.contribution)).sum = 1 :=
  C5_contributions defaultConfig noPerf twoResults
    (by rw [twoResults]; exact List.cons_ne_nil _ _)
    (by
      rw [calculateAlgorithmWeights_adaptive defaultConfig noPerf _ rfl, twoResults]
      simp only [List.map_cons, List.map_nil, List.zip_cons_cons,
        List.zip_nil_right, List.sum_cons, List.sum_nil]
      norm_num)

/-- C6 (counterexample): a configuration that explicitly names only the
unknown algorithm `"frobnicate"` does **not** make `detect` raise: the
call returns the normal empty-ensemble verdict (`algorithms=[]`,
`isAnomaly=false`, score 0). -/
theorem C6_counterexample :
    (detect unknownConfig noPerf fmt0 fmt0 rand0 spikePoint constHist).algorithms
      = [] ∧
    ¬ (detect unknownConfig noPerf fmt0 fmt0 rand0 spikePoint constHist).isAnomaly ∧
    (detect unknownConfig noPerf fmt0 fmt0 rand0 spikePoint constHist).score = 0 := by
  have hlen : ¬ (constHist.length < unknownConfig.minDataPoints) := by
    rw [constHist, unknownConfig]
    norm_num
  rw [detect_run unknownConfig noPerf fmt0 fmt0 rand0 spikePoint constHist hlen]
  dsimp only
  rw [configuredResults_unknown, ensembleVote_nil]
  exact ⟨rfl, not_false, rfl⟩

/-- C6 (amended): `detect` never raises for schema-valid numeric input —
the source has no reachable `throw`, and `shouldRunAlgorithm` silently
ignores unknown names.  A configuration naming only unknown algorithms
(and not `ensemble`) yields the empty detector list and a non-anomaly
verdict with score 0 instead of a ConfigurationError. -/
theorem C6_no_configuration_error (cfg : AdvancedDetectorConfig)
    (perf : String → Option ℝ) (fmt2 fmt1 : ℝ → String) (rand : ℕ → ℕ → ℝ)
    (dp : DataPoint) (hist : List DataPoint)
    (hens : "ensemble" ∉ cfg.algorithms)
    (hunk : ∀ a ∈ cfg.algorithms,
      a ∉ (["zscore", "mad", "iqr", "isolation-forest", "lof"] : List String)) :
    (detect cfg perf fmt2 fmt1 rand dp hist).algorithms = [] ∧
    ¬ (detect cfg perf fmt2 fmt1 rand dp hist).isAnomaly ∧
    (detect cfg perf fmt2 fmt1 rand dp hist).score = 0 := by
  by_cases hlen : hist.length < cfg.minDataPoints
  · rw [detect_short cfg perf fmt2 fmt1 rand dp hist hlen]
    exact ⟨rfl, not_false, rfl⟩
  · have hsr : ∀ a ∈ (["zscore", "mad", "iqr", "isolation-forest", "lof"] :
        List String), ¬ shouldRunAlgorithm cfg a := by
      intro a ha h
      rcases h with h | h
      · exact hens h
      · exact hunk a h ha
    have hcr : configuredResults cfg rand dp.value (hist.map (fun d => d.value))
        = [] := by
      unfold configuredResults
      rw [if_neg (hsr "zscore" (by decide)), if_neg (hsr "mad" (by decide)),
        if_neg (hsr "iqr" (by decide)), if_neg (hsr "isolation-forest" (by decide)),
        if_neg (hsr "lof" (by decide))]
      rfl
    rw [detect_run cfg perf fmt2 fmt1 rand dp hist hlen]
    dsimp only
    rw [hcr, ensembleVote_nil]
    exact ⟨rfl, not_false, rfl⟩

/-- C6 (witness): the amended statement at the concrete `"frobnicate"`
configuration with an empty history. -/
theorem C6_witness :
    (detect unknownConfig noPerf fmt0 fmt0 rand1 spikePoint []).algorithms = [] ∧
    ¬ (detect unknownConfig noPerf fmt0 fmt0 rand1 spikePoint []).isAnomaly ∧
    (detect unknownConfig noPerf fmt0 fmt0 rand1 spikePoint []).score = 0 :=
  C6_no_configuration_error unknownConfig noPerf fmt0 fmt0 rand1 spikePoint []
    (by decide) (by decide)

/-- C7 (counterexample): monotonicity of the final weighted score in the
distance from the historical mean fails.  Against `[0,0,0,0,0,10]`
(mean 5/3) under an lof-only configuration, moving the candidate from 5
to 10 — further from the mean, same direction — strictly *decreases* the
weighted score (LOF compares a point to its nearest neighbours, not to
the mean). -/
theorem C7_counterexample :
    mean (mixedHist.map (fun d => d.value)) ≤ 5 ∧ (5 : ℝ) ≤ 10 ∧
    (detect lofConfig noPerf fmt0 fmt0 rand0 ⟨0, 10, "cpu"⟩ mixedHist).score <
      (detect lofConfig noPerf fmt0 fmt0 rand0 ⟨0, 5, "cpu"⟩ mixedHist).score := by
  refine ⟨?_, by norm_num, ?_⟩
  · have hvals : mixedHist.map (fun d => d.value) = [0, 0, 0, 0, 0, (10 : ℝ)] := rfl
    rw [hvals]
    unfold mean
    norm_num
  · rw [detect_lofConfig_score, detect_lofConfig_score]
    have h10 : (⟨0, 10, "cpu"⟩ : DataPoint).value = 10 := rfl
    have h5 : (⟨0, 5, "cpu"⟩ : DataPoint).value = 5 := rfl
    rw [h10, h5, lof_mixed_ten, lof_mixed_five]
    norm_num

/-- C7 (amended): for a configuration running only the `zscore` detector
under equal weighting, the final weighted score *is* monotone in the
candidate's distance from the historical mean; the LOF detector breaks
the property for richer configurations. -/
theorem C7_zscore_monotone (cfg : AdvancedDetectorConfig)
    (perf : String → Option ℝ) (fmt2 fmt1 : ℝ → String) (rand : ℕ → ℕ → ℝ)
    (dp1 dp2 : DataPoint) (hist : List DataPoint)
    (halgs : cfg.algorithms = ["zscore"])
    (hw : cfg.ensembleWeighting = .adaptive)
    (hlen : ¬ hist.length < cfg.minDataPoints)
    (hmono : |dp1.value - mean (hist.map (fun d => d.value))| ≤
      |dp2.value - mean (hist.map (fun d => d.value))|) :
    (detect cfg perf fmt2 fmt1 rand dp1 hist).score ≤
      (detect cfg perf fmt2 fmt1 rand dp2 hist).score := by
  rw [detect_run cfg perf fmt2 fmt1 rand dp1 hist hlen,
    detect_run cfg perf fmt2 fmt1 rand dp2 hist hlen]
  dsimp only
  rw [configuredResults_zscoreOnly cfg rand dp1.value _ halgs,
    configuredResults_zscoreOnly cfg rand dp2.value _ halgs]
  rw [ensembleVote_single_adaptive cfg perf _ hw,
    ensembleVote_single_adaptive cfg perf _ hw]
  have hrz : ∀ v : ℝ, (runZScore cfg v (hist.map (fun d => d.value))).score =
      (StatisticalDetectors.zScore v (hist.map (fun d => d.value))
        (getSensitivityThreshold cfg.sensitivity)).score := fun _ => rfl
  rw [hrz, hrz]
  apply zScore_score_mono _ hmono
  cases hs : cfg.sensitivity <;> norm_num [getSensitivityThreshold]

/-- C7 (witness): the amended monotonicity at `[1,3]` (mean 2) with
candidates 3 and 5 under the zscore-only configuration. -/
theorem C7_witness :
    (detect zscoreConfig noPerf fmt0 fmt0 rand0 ⟨0, 3, "cpu"⟩ twoHist).score ≤
      (detect zscoreConfig noPerf fmt0 fmt0 rand0 ⟨0, 5, "cpu"⟩ twoHist).score :=
  C7_zscore_monotone zscoreConfig noPerf fmt0 fmt0 rand0 ⟨0, 3, "cpu"⟩
    ⟨0, 5, "cpu"⟩ twoHist rfl rfl (by norm_num [twoHist, zscoreConfig])
    (by
      have hvals : twoHist.map (fun d => d.value) = [1, (3 : ℝ)] := rfl
      rw [hvals]
      unfold mean
      norm_num)

/-- C8: once at least `minDataPoints` points are present, the returned
explanation's expected range is exactly `[μ − 2σ, μ + 2σ]` with σ the
population standard deviation of the historical values, and the reported
deviation is `|value − μ|/σ` when σ > 0 and `0` when σ = 0. -/
theorem C8_explanation (cfg : AdvancedDetectorConfig) (perf : String → Option ℝ)
    (fmt2 fmt1 : ℝ → String) (rand : ℕ → ℕ → ℝ) (dp : DataPoint)
    (hist : List DataPoint) (h : ¬ hist.length < cfg.minDataPoints) :
    (detect cfg perf fmt2 fmt1 rand dp hist).explanation.expectedRange =
      (mean (hist.map (fun d => d.value)) -
         2 * popStdDev (hist.map (fun d => d.value)),
       mean (hist.map (fun d => d.value)) +
         2 * popStdDev (hist.map (fun d => d.value))) ∧
    (detect cfg perf fmt2 fmt1 rand dp hist).explanation.deviation =
      (if popStdDev (hist.map (fun d => d.value)) > 0 then
        |dp.value - mean (hist.map (fun d => d.value))| /
          popStdDev (hist.map (fun d => d.value))
      else 0) := by
  rw [detect_run cfg perf fmt2 fmt1 rand dp hist h]
  dsimp only
  refine ⟨generateExplanation_expectedRange fmt2 fmt1 dp.value _ _, ?_⟩
  rw [generateExplanation_deviation]
  by_cases hs : popStdDev (hist.map (fun d => d.value)) > 0
  · rw [if_pos hs, if_pos hs, abs_div, abs_of_pos hs]
  · rw [if_neg hs, if_neg hs, abs_zero]

/-- C8 (witness): at the constant 30-point history the expected range is
`[100, 100]` and the deviation is 0. -/
theorem C8_witness :
    (detect defaultConfig noPerf fmt0 fmt0 rand0 spikePoint
      constHist).explanation.expectedRange =
      (mean (constHist.map (fun d => d.value)) -
         2 * popStdDev (constHist.map (fun d => d.value)),
       mean (constHist.map (fun d => d.value)) +
         2 * popStdDev (constHist.map (fun d => d.value))) ∧
    (detect defaultConfig noPerf fmt0 fmt0 rand0 spikePoint
      constHist).explanation.deviation =
      (if popStdDev (constHist.map (fun d => d.value)) > 0 then
        |spikePoint.value - mean (constHist.map (fun d => d.value))| /
          popStdDev (constHist.map (fun d => d.value))
      else 0) :=
  C8_explanation defaultConfig noPerf fmt0 fmt0 rand0 spikePoint constHist
    (by rw [constHist, defaultConfig]; norm_num)

/-- C9: when the configured algorithm set does not make the
isolation-forest detector run (neither `ensemble` nor `isolation-forest`
is named), `detect` is independent of the injected random stream: two
calls with identical value, history, configuration and performance table
return identical results — the isolation forest is the sole consumer of
randomness. -/
theorem C9_determinism (cfg : AdvancedDetectorConfig) (perf : String → Option ℝ)
    (fmt2 fmt1 : ℝ → String) (rand1 rand2 : ℕ → ℕ → ℝ) (dp : DataPoint)
    (hist : List DataPoint)
    (h : ¬ shouldRunAlgorithm cfg "isolation-forest") :
    detect cfg perf fmt2 fmt1 rand1 dp hist =
      detect cfg perf fmt2 fmt1 rand2 dp hist := by
  by_cases hlen : hist.length < cfg.minDataPoints
  · rw [detect_short cfg perf fmt2 fmt1 rand1 dp hist hlen,
      detect_short cfg perf fmt2 fmt1 rand2 dp hist hlen]
  · rw [detect_run cfg perf fmt2 fmt1 rand1 dp hist hlen,
      detect_run cfg perf fmt2 fmt1 rand2 dp hist hlen]
    dsimp only
    have hcr : configuredResults cfg rand1 dp.value (hist.map (fun d => d.value)) =
        configuredResults cfg rand2 dp.value (hist.map (fun d => d.value)) := by
      unfold configuredResults
      rw [if_neg h, if_neg h]
    rw [hcr]

/-- C9 (witness): two different random streams, zscore-only
configuration, identical results. -/
theorem C9_witness :
    detect zscoreConfig noPerf fmt0 fmt0 rand0 spikePoint twoHist =
      detect zscoreConfig noPerf fmt0 fmt0 rand1 spikePoint twoHist :=
  C9_determinism zscoreConfig noPerf fmt0 fmt0 rand0 rand1 spikePoint twoHist
    (by unfold shouldRunAlgorithm zscoreConfig; decide)

/-- C10: the coordinator invokes `zScore` through `runZScore` with the
sensitivity-dependent threshold {low: 4, medium: 3, high: 2, adaptive: 3}
(not the function's fixed default 3), while `runMAD` and `runIQR` always
pass the fixed defaults 3.5 and 1.5 whatever the sensitivity. -/
theorem C10_detector_thresholds (cfg : AdvancedDetectorConfig) (value : ℝ)
    (values : List ℝ) :
    (getSensitivityThreshold .low = 4 ∧ getSensitivityThreshold .medium = 3 ∧
     getSensitivityThreshold .high = 2 ∧ getSensitivityThreshold .adaptive = 3) ∧
    runZScore cfg value values =
      ⟨"zscore",
       (StatisticalDetectors.zScore value values
         (getSensitivityThreshold cfg.sensitivity)).score,
       (StatisticalDetectors.zScore value values
         (getSensitivityThreshold cfg.sensitivity)).isAnomaly, 0, 0⟩ ∧
    runMAD value values =
      ⟨"mad", (StatisticalDetectors.mad value values 3.5).score,
       (StatisticalDetectors.mad value values 3.5).isAnomaly, 0, 0⟩ ∧
    runIQR value values =
      ⟨"iqr", (StatisticalDetectors.iqr value values 1.5).score,
       (StatisticalDetectors.iqr value values 1.5).isAnomaly, 0, 0⟩ :=
  ⟨⟨rfl, rfl, rfl, rfl⟩, rfl, rfl, rfl⟩

end Claims

end Whole

